import Mathlib

/-!
Shallow embedding of the OAuth token-lifecycle and request-authentication
subsystem of the home-automation repository (src/alexa-fn/oauth_module.py,
src/alexa-fn/auth_module.py, src/alexa-fn/function_app.py), with theorems
settling the frozen claims about it.

Modelling conventions:
* Python dicts holding JSON provider responses are modelled by structures
  with `Option` fields (`none` = key absent); Python truthiness of strings
  (`if not x`) is `optStrTruthy`.
* Wall-clock instants (`datetime.utcnow()`) are natural numbers counting
  seconds; `timedelta(minutes=5)` is `300`; ISO timestamp round-trips are
  modelled by `ExpiresAt.parsed`, and a stored `expires_at` string that
  `datetime.fromisoformat` rejects by `ExpiresAt.unparseable`.
* Network calls are modelled by passing the provider's response in as an
  argument and recording the call in an event trace (`Ev`), so that the
  claims counting POSTs and refreshes are statements about the trace.
* `hashlib.sha256(user_id.encode()).hexdigest()` is an injective string
  key-derivation whose digest value no claim depends on; it is modelled as
  the identity on strings (`getUserKey`).
-/

namespace HomeAuto

/-- JSON values as produced by `json.loads`; numbers keep their lexeme so
that Python truthiness of numeric zero can be decided without floats. -/
inductive Json where
  | null : Json
  | bool : Bool → Json
  | num : String → Json
  | str : String → Json
  | arr : List Json → Json
  | obj : List (String × Json) → Json

/-- Python truthiness of an optional string (`if not x` on `dict.get`). -/
def optStrTruthy : Option String → Bool
  | some s => !(s == "")
  | none => false

/-- A numeric lexeme denotes zero iff its mantissa has no nonzero digit
(the exponent part cannot make a nonzero mantissa zero). -/
def numIsZero (s : String) : Bool :=
  let mantissa := s.data.takeWhile (fun c => !(c == 'e' || c == 'E'))
  mantissa.all (fun c => c == '0' || c == '-' || c == '.')

/-- Python truthiness of a JSON value (`bool(x)` on `json.loads` output). -/
def jsonTruthy : Json → Bool
  | Json.null => false
  | Json.bool b => b
  | Json.num s => !(numIsZero s)
  | Json.str s => !(s == "")
  | Json.arr l => !(l.isEmpty)
  | Json.obj l => !(l.isEmpty)

/-- `dict.get` on the object built by `json.loads`: for duplicate keys the
last occurrence wins, as in Python dict construction. -/
def lookupLast (kvs : List (String × Json)) (k : String) : Option Json :=
  kvs.foldl (fun acc kv => if kv.fst == k then some kv.snd else acc) none

/-- `payload.get(k)` when the decoded payload is a mapping. -/
def objGet : Json → String → Option Json
  | Json.obj kvs, k => lookupLast kvs k
  | _, _ => none

/-- Python `or` on two `dict.get` results: keep the left value when it is
truthy, otherwise yield the right operand unchanged. -/
def pyOrJ (a b : Option Json) : Option Json :=
  match a with
  | some v => if jsonTruthy v then some v else b
  | none => b

/-- Python `or` on two optional strings (`headers.get(k1) or headers.get(k2)`). -/
def pyOrStr (a b : Option String) : Option String :=
  match a with
  | some s => if s == "" then b else some s
  | none => b

/-! ### base64url decoding (`base64.urlsafe_b64decode`) -/

/-- Standard base64 alphabet value of a character. -/
def b64Val (c : Char) : Option Nat :=
  let n := c.toNat
  if 65 ≤ n && n ≤ 90 then some (n - 65)
  else if 97 ≤ n && n ≤ 122 then some (n - 97 + 26)
  else if 48 ≤ n && n ≤ 57 then some (n - 48 + 52)
  else if c == '+' then some 62
  else if c == '/' then some 63
  else none

/-- urlsafe alphabet translation done by `urlsafe_b64decode` before decoding. -/
def urlsafeTranslate (c : Char) : Char :=
  if c == '-' then '+' else if c == '_' then '/' else c

/-- Pack a stream of 6-bit groups into bytes, discarding trailing bits,
exactly as the base64 bit-reassembly does. -/
def sixbitsToBytes (vals : List Nat) : List Nat :=
  (vals.foldl
    (fun st v =>
      let acc := st.2.1 * 64 + v
      let nb := st.2.2 + 6
      if nb ≥ 8 then (st.1 ++ [acc / 2 ^ (nb - 8)], acc % 2 ^ (nb - 8), nb - 8)
      else (st.1, acc, nb))
    (([] : List Nat), 0, 0)).1

/-- `base64.urlsafe_b64decode` with default (non-validating) behaviour:
translate the urlsafe alphabet, discard characters outside the base64
alphabet, require the padded length to be a multiple of 4 with the data
length not ≡ 1 (mod 4), and reassemble the bytes. `none` models the
`binascii.Error` raised on incorrect padding. -/
def b64urlDecodeBytes (s : String) : Option (List Nat) :=
  let cs := s.data.map urlsafeTranslate
  let kept := cs.filter (fun c => (b64Val c).isSome || c == '=')
  let dataChars := kept.takeWhile (fun c => !(c == '='))
  if dataChars.length % 4 == 1 then none
  else if !(kept.length % 4 == 0) then none
  else some (sixbitsToBytes (dataChars.filterMap b64Val))

/-! ### strict UTF-8 decoding (`bytes.decode('utf-8')`) -/

def isCont (b : Nat) : Bool := 128 ≤ b && b ≤ 191

/-- Strict UTF-8 decoder: rejects continuation-only bytes, overlong forms,
surrogate code points and values above 0x10FFFF, as `bytes.decode('utf-8')`
does (`none` models `UnicodeDecodeError`). -/
def utf8DecodeAux : List Nat → Option (List Char)
  | [] => some []
  | b :: rest =>
    if b < 128 then
      match utf8DecodeAux rest with
      | some cs => some (Char.ofNat b :: cs)
      | none => none
    else if b < 194 then none
    else if b < 224 then
      match rest with
      | b2 :: rest2 =>
        if isCont b2 then
          match utf8DecodeAux rest2 with
          | some cs => some (Char.ofNat ((b - 192) * 64 + (b2 - 128)) :: cs)
          | none => none
        else none
      | [] => none
    else if b < 240 then
      match rest with
      | b2 :: b3 :: rest3 =>
        let b2ok :=
          if b == 224 then 160 ≤ b2 && b2 ≤ 191
          else if b == 237 then 128 ≤ b2 && b2 ≤ 159
          else isCont b2
        if b2ok && isCont b3 then
          match utf8DecodeAux rest3 with
          | some cs => some (Char.ofNat ((b - 224) * 4096 + (b2 - 128) * 64 + (b3 - 128)) :: cs)
          | none => none
        else none
      | _ => none
    else if b ≤ 244 then
      match rest with
      | b2 :: b3 :: b4 :: rest4 =>
        let b2ok :=
          if b == 240 then 144 ≤ b2 && b2 ≤ 191
          else if b == 244 then 128 ≤ b2 && b2 ≤ 143
          else isCont b2
        if b2ok && isCont b3 && isCont b4 then
          match utf8DecodeAux rest4 with
          | some cs =>
            some (Char.ofNat ((b - 240) * 262144 + (b2 - 128) * 4096 + (b3 - 128) * 64 + (b4 - 128)) :: cs)
          | none => none
        else none
      | _ => none
    else none

def utf8Decode (bs : List Nat) : Option String :=
  match utf8DecodeAux bs with
  | some cs => some (String.mk cs)
  | none => none

/-! ### JSON parsing (`json.loads`, strict mode) -/

def chLBrace : Char := Char.ofNat 123
def chRBrace : Char := Char.ofNat 125

def isJsonWs (c : Char) : Bool := ([ ' ', '\t', '\n', '\r' ] : List Char).contains c

def skipWs (cs : List Char) : List Char := cs.dropWhile isJsonWs

def hexVal (c : Char) : Option Nat :=
  let n := c.toNat
  if 48 ≤ n && n ≤ 57 then some (n - 48)
  else if 97 ≤ n && n ≤ 102 then some (n - 97 + 10)
  else if 65 ≤ n && n ≤ 70 then some (n - 65 + 10)
  else none

def hex4 (a b c d : Char) : Option Nat :=
  match hexVal a, hexVal b, hexVal c, hexVal d with
  | some x, some y, some z, some w => some (x * 4096 + y * 256 + z * 16 + w)
  | _, _, _, _ => none

def escTable : List (Char × Char) :=
  [ ('"', '"'), ('\\', '\\'), ('/', '/'), ('b', Char.ofNat 8), ('f', Char.ofNat 12),
    ('n', '\n'), ('r', '\r'), ('t', '\t') ]

def escChar (c : Char) : Option Char :=
  (escTable.find? (fun p => p.fst == c)).map Prod.snd

/-- Parse the remainder of a JSON string after the opening quote, handling
escapes and surrogate pairs. Lone surrogate escapes (which CPython's
`json.loads` tolerates but Lean's `Char` cannot represent) are modelled as
parse failures; no claim exercises them. -/
def parseStringRest (fuel : Nat) (cs : List Char) : Option (List Char × List Char) :=
  match fuel, cs with
  | 0, _ => none
  | _, [] => none
  | fuel + 1, c :: rest =>
    if c == '"' then some ([], rest)
    else if c == '\\' then
      match rest with
      | [] => none
      | e :: rest2 =>
        if e == 'u' then
          match rest2 with
          | a :: b :: c2 :: d :: rest3 =>
            match hex4 a b c2 d with
            | none => none
            | some h =>
              if 55296 ≤ h && h ≤ 56319 then
                match rest3 with
                | '\\' :: 'u' :: a2 :: b2 :: c3 :: d2 :: rest4 =>
                  match hex4 a2 b2 c3 d2 with
                  | none => none
                  | some l =>
                    if 56320 ≤ l && l ≤ 57343 then
                      match parseStringRest fuel rest4 with
                      | some (s, r) =>
                        some (Char.ofNat (65536 + (h - 55296) * 1024 + (l - 56320)) :: s, r)
                      | none => none
                    else none
                | _ => none
              else if 56320 ≤ h && h ≤ 57343 then none
              else
                match parseStringRest fuel rest3 with
                | some (s, r) => some (Char.ofNat h :: s, r)
                | none => none
          | _ => none
        else
          match escChar e with
          | none => none
          | some ec =>
            match parseStringRest fuel rest2 with
            | some (s, r) => some (ec :: s, r)
            | none => none
    else if c.toNat < 32 then none
    else
      match parseStringRest fuel rest with
      | some (s, r) => some (c :: s, r)
      | none => none

/-- Match the JSON number regex `-?(0|[1-9][0-9]*)([.][0-9]+)?([eE][+-]?[0-9]+)?`
at the head of the input, returning the lexeme and the rest. -/
def parseNumber (cs : List Char) : Option (Json × List Char) :=
  let (sign, cs1) :=
    match cs with
    | '-' :: r => (([ '-' ] : List Char), r)
    | _ => (([] : List Char), cs)
  match cs1 with
  | [] => none
  | d :: _ =>
    if !d.isDigit then none
    else
      let (ip, r1) :=
        if d == '0' then (([ '0' ] : List Char), cs1.drop 1)
        else (cs1.takeWhile Char.isDigit, cs1.dropWhile Char.isDigit)
      let (fp, r2) :=
        match r1 with
        | '.' :: rr =>
          let ds := rr.takeWhile Char.isDigit
          if ds.isEmpty then (([] : List Char), r1)
          else ('.' :: ds, rr.drop ds.length)
        | _ => (([] : List Char), r1)
      let (ep, r3) :=
        match r2 with
        | e :: rr =>
          if e == 'e' || e == 'E' then
            let (sgn, rr2) :=
              match rr with
              | '+' :: rs => (([ '+' ] : List Char), rs)
              | '-' :: rs => (([ '-' ] : List Char), rs)
              | _ => (([] : List Char), rr)
            let ds := rr2.takeWhile Char.isDigit
            if ds.isEmpty then (([] : List Char), r2)
            else (e :: (sgn ++ ds), rr2.drop ds.length)
          else (([] : List Char), r2)
        | _ => (([] : List Char), r2)
      some (Json.num (String.mk (sign ++ ip ++ fp ++ ep)), r3)

mutual

/-- Recursive-descent JSON value parser mirroring `json.loads` (including
CPython's `NaN`, `Infinity` and `-Infinity` constants). -/
def parseJsonValue : Nat → List Char → Option (Json × List Char)
  | 0, _ => none
  | fuel + 1, cs0 =>
    let cs := skipWs cs0
    match cs with
    | [] => none
    | c :: rest =>
      if c == '"' then
        match parseStringRest (rest.length + 1) rest with
        | some (s, r) => some (Json.str (String.mk s), r)
        | none => none
      else if c == chLBrace then parseObjRest fuel rest
      else if c == '[' then parseArrRest fuel rest
      else if c == 't' then
        match rest with
        | 'r' :: 'u' :: 'e' :: r => some (Json.bool true, r)
        | _ => none
      else if c == 'f' then
        match rest with
        | 'a' :: 'l' :: 's' :: 'e' :: r => some (Json.bool false, r)
        | _ => none
      else if c == 'n' then
        match rest with
        | 'u' :: 'l' :: 'l' :: r => some (Json.null, r)
        | _ => none
      else if c == 'N' then
        match rest with
        | 'a' :: 'N' :: r => some (Json.num ("NaN"), r)
        | _ => none
      else if c == 'I' then
        match rest with
        | 'n' :: 'f' :: 'i' :: 'n' :: 'i' :: 't' :: 'y' :: r => some (Json.num ("Infinity"), r)
        | _ => none
      else if c == '-' && (match rest with | 'I' :: _ => true | _ => false) then
        match rest with
        | 'I' :: 'n' :: 'f' :: 'i' :: 'n' :: 'i' :: 't' :: 'y' :: r => some (Json.num ("-Infinity"), r)
        | _ => none
      else parseNumber cs

/-- Parse an object body after the opening brace. -/
def parseObjRest (fuel : Nat) (cs0 : List Char) : Option (Json × List Char) :=
  match fuel with
  | 0 => none
  | fuel + 1 =>
    let cs := skipWs cs0
    match cs with
    | [] => none
    | c :: rest =>
      if c == chRBrace then some (Json.obj [], rest)
      else parseMembers fuel cs []

/-- Parse the (nonempty) member list of an object, accumulating pairs. -/
def parseMembers (fuel : Nat) (cs0 : List Char) (acc : List (String × Json)) :
    Option (Json × List Char) :=
  match fuel with
  | 0 => none
  | fuel + 1 =>
    let cs := skipWs cs0
    match cs with
    | '"' :: rest =>
      match parseStringRest (rest.length + 1) rest with
      | none => none
      | some (k, r1) =>
        match skipWs r1 with
        | ':' :: r2 =>
          match parseJsonValue fuel r2 with
          | none => none
          | some (v, r3) =>
            let acc2 := acc ++ [(String.mk k, v)]
            match skipWs r3 with
            | ',' :: r4 => parseMembers fuel r4 acc2
            | c :: r4 => if c == chRBrace then some (Json.obj acc2, r4) else none
            | [] => none
        | _ => none
    | _ => none

/-- Parse an array body after the opening bracket. -/
def parseArrRest (fuel : Nat) (cs0 : List Char) : Option (Json × List Char) :=
  match fuel with
  | 0 => none
  | fuel + 1 =>
    let cs := skipWs cs0
    match cs with
    | ']' :: rest => some (Json.arr [], rest)
    | _ => parseElements fuel cs []

/-- Parse the (nonempty) element list of an array. -/
def parseElements (fuel : Nat) (cs : List Char) (acc : List Json) :
    Option (Json × List Char) :=
  match fuel with
  | 0 => none
  | fuel + 1 =>
    match parseJsonValue fuel cs with
    | none => none
    | some (v, r1) =>
      let acc2 := acc ++ [v]
      match skipWs r1 with
      | ',' :: r2 => parseElements fuel r2 acc2
      | ']' :: r2 => some (Json.arr acc2, r2)
      | _ => none

end

/-- `json.loads`: parse one value and require only whitespace after it. -/
def jsonLoads (s : String) : Option Json :=
  let cs := s.data
  match parseJsonValue (4 * cs.length + 16) cs with
  | some (v, rest) => if (skipWs rest).isEmpty then some v else none
  | none => none

/-! ### Identity resolution (`extract_user_id_from_token`) -/

/-- Lines 285–294 of oauth_module.py: pad the JWT middle segment to a
multiple of 4 with `=`, base64url-decode it, UTF-8-decode the bytes and
parse them as JSON. `none` covers the `binascii`, Unicode and JSON errors
(each of which makes the surrounding function return `None`). -/
def decodeJwtPayload (payload_encoded : String) : Option Json :=
  let padding := payload_encoded.length % 4
  let padded :=
    if padding != 0 then payload_encoded ++ String.mk (List.replicate (4 - padding) '=')
    else payload_encoded
  match b64urlDecodeBytes padded with
  | none => none
  | some bytes =>
    match utf8Decode bytes with
    | none => none
    | some s => jsonLoads s

/-- The `payload.get('sub') or payload.get('user_id') or payload.get('userId')
or payload.get('aud')` chain of oauth_module.py line 301. -/
def chainLookup (payload : Json) : Option Json :=
  pyOrJ (objGet payload ("sub"))
    (pyOrJ (objGet payload ("user_id"))
      (pyOrJ (objGet payload ("userId")) (objGet payload ("aud"))))

/-- Python `access_token.split('.')`: split into the (always nonempty)
list of dot-separated segments. -/
def pySplitDot (s : String) : List String :=
  (s.data.foldr
    (fun c acc =>
      match acc with
      | cur :: rest => if c == '.' then [] :: cur :: rest else (c :: cur) :: rest
      | [] => [])
    ([[]] : List (List Char))).map String.mk

/-- oauth_module.py `extract_user_id_from_token`: split on dots; for a
three-segment token decode the middle segment and return the chain lookup
result if truthy; in every other case (wrong segment count, decode or
parse failure, non-mapping payload, no truthy field) return `None`.
The result is the raw JSON value the Python expression returns. -/
def extract_user_id_from_token (access_token : String) : Option Json :=
  match pySplitDot access_token with
  | [_, payload_encoded, _] =>
    match decodeJwtPayload payload_encoded with
    | none => none
    | some payload =>
      match payload with
      | Json.obj kvs =>
        match chainLookup (Json.obj kvs) with
        | some v => if jsonTruthy v then some v else none
        | none => none
      | _ => none
  | _ => none

/-- Specification-side characterization used by the amended claim C3: the
first key in the priority list whose value is present and truthy. -/
def firstTruthy (payload : Json) : List String → Option Json
  | [] => none
  | k :: ks =>
    match objGet payload k with
    | some v => if jsonTruthy v then some v else firstTruthy payload ks
    | none => firstTruthy payload ks

/-! ### Token records and the credential store (oauth_module.py TokenManager) -/

/-- The stored `expires_at` field: either an ISO timestamp that
`datetime.fromisoformat` parses (modelled as seconds), or a string it
rejects. -/
inductive ExpiresAt where
  | parsed : Nat → ExpiresAt
  | unparseable : String → ExpiresAt
deriving DecidableEq

/-- A stored token dict. Only the fields the subsystem reads are modelled;
the bookkeeping strings (`user_id`, `obtained_at`, `refreshed_at`,
`updated_at`, `original_user_token`) are written but never read back, so
they are omitted. `none` models an absent key. -/
structure Tokens where
  access_token : Option String
  refresh_token : Option String
  expires_at : Option ExpiresAt
deriving DecidableEq

/-- Process configuration read from environment variables, plus the flags
describing whether the remote secret-store client initialized and whether
its calls raise (the per-call failure modes of the Key Vault backend). -/
structure Cfg where
  storageType : String
  smartHomeCreds : Bool
  kvClientInit : Bool
  kvSetSecretFails : Bool
  kvGetSecretFails : Bool
  kvDeleteFails : Bool
  allowedUserId : String
  bypassAuth : Bool
deriving DecidableEq

/-- The mutable storage: the in-process `_token_cache`, the on-disk token
table behind `TOKEN_FILE_PATH`, and the remote secret store's contents. -/
structure St where
  cache : List (String × Tokens)
  fileTable : List (String × Tokens)
  vault : List (String × Tokens)
deriving DecidableEq

/-- Network calls made by the subsystem, in order. -/
inductive Ev where
  | refreshPost : Ev
  | exchangePost : Ev
  | gatewayPost : Option String → Ev
  | introspectGet : String → Ev
deriving DecidableEq

def countRefreshPosts (evs : List Ev) : Nat :=
  evs.countP (fun e => match e with | Ev.refreshPost => true | _ => false)

def countGatewayPosts (evs : List Ev) : Nat :=
  evs.countP (fun e => match e with | Ev.gatewayPost _ => true | _ => false)

/-- `TokenManager._get_user_key`: `hashlib.sha256(user_id.encode()).hexdigest()`,
an injective key derivation whose digest value nothing depends on;
modelled as the identity. -/
def getUserKey (user_id : String) : String := user_id

/-- Python dict assignment `tbl[k] = v`. -/
def insertTbl (k : String) (v : Tokens) (t : List (String × Tokens)) :
    List (String × Tokens) :=
  (k, v) :: t.filter (fun kv => !(kv.fst == k))

/-- Python dict deletion `del tbl[k]` (no-op when absent). -/
def removeTbl (k : String) (t : List (String × Tokens)) : List (String × Tokens) :=
  t.filter (fun kv => !(kv.fst == k))

def lookupTbl (k : String) (t : List (String × Tokens)) : Option Tokens :=
  match t.find? (fun kv => kv.fst == k) with
  | some kv => some kv.snd
  | none => none

/-- `TokenManager.store_tokens`: write under the derived key into the
backend selected by `storageType`; the Key Vault backend falls back to the
in-process cache (still returning `True`) when the client is uninitialized
or the write raises; an unknown storage type returns `False`. -/
def store_tokens (cfg : Cfg) (st : St) (user_id : String) (tokens : Tokens) :
    Bool × St :=
  let user_key := getUserKey user_id
  if cfg.storageType == "memory" then
    (true, { st with cache := insertTbl user_key tokens st.cache })
  else if cfg.storageType == "file" then
    (true, { st with fileTable := insertTbl user_key tokens st.fileTable })
  else if cfg.storageType == "azure_key_vault" then
    if !cfg.kvClientInit then
      (true, { st with cache := insertTbl user_key tokens st.cache })
    else if cfg.kvSetSecretFails then
      (true, { st with cache := insertTbl user_key tokens st.cache })
    else
      (true, { st with vault := insertTbl user_key tokens st.vault })
  else (false, st)

/-- `TokenManager.get_tokens`: read under the derived key; the Key Vault
backend falls back to the cache when the client is uninitialized or the
read raises; absence is `None`, not an error. -/
def get_tokens (cfg : Cfg) (st : St) (user_id : String) : Option Tokens :=
  let user_key := getUserKey user_id
  if cfg.storageType == "memory" then lookupTbl user_key st.cache
  else if cfg.storageType == "file" then lookupTbl user_key st.fileTable
  else if cfg.storageType == "azure_key_vault" then
    if !cfg.kvClientInit then lookupTbl user_key st.cache
    else if cfg.kvGetSecretFails then lookupTbl user_key st.cache
    else lookupTbl user_key st.vault
  else none

/-- `TokenManager.delete_tokens`: idempotent delete; the Key Vault backend
deletes from the cache instead when the client is uninitialized or the
call raises, and returns `True` in every backend-reachable case. -/
def delete_tokens (cfg : Cfg) (st : St) (user_id : String) : Bool × St :=
  let user_key := getUserKey user_id
  if cfg.storageType == "memory" then
    (true, { st with cache := removeTbl user_key st.cache })
  else if cfg.storageType == "file" then
    (true, { st with fileTable := removeTbl user_key st.fileTable })
  else if cfg.storageType == "azure_key_vault" then
    if !cfg.kvClientInit then
      (true, { st with cache := removeTbl user_key st.cache })
    else if cfg.kvDeleteFails then
      (true, { st with cache := removeTbl user_key st.cache })
    else
      (true, { st with vault := removeTbl user_key st.vault })
  else (false, st)

/-! ### Provider responses and the token lifecycle operations -/

/-- The JSON body of a token-endpoint response (`response.json()`); only
the keys the code reads are modelled. -/
structure TokenResponse where
  access_token : Option String
  refresh_token : Option String
  expires_in : Option Nat
deriving DecidableEq

/-- An HTTP response from the provider's token endpoint. -/
structure HttpResp where
  status : Nat
  body : TokenResponse
deriving DecidableEq

/-- The `(success, payload, error_message)` triple the oauth operations
return. -/
abbrev OpResult (α : Type) := Bool × Option α × Option String

/-- The `if 'expires_in' in tokens: tokens['expires_at'] = utcnow() +
timedelta(seconds=tokens['expires_in'])` computation shared by exchange
and refresh. -/
def expiresFromResp (body : TokenResponse) (now : Nat) : Option ExpiresAt :=
  match body.expires_in with
  | some e => some (ExpiresAt.parsed (now + e))
  | none => none

/-- The `if 'refresh_token' not in new_tokens: new_tokens['refresh_token']
= refresh_token` preservation step of `refresh_access_token`. -/
def preservedRefreshToken (body : TokenResponse) (current : Option String) :
    Option String :=
  match body.refresh_token with
  | some r => some r
  | none => current

/-- The `new_tokens` dict built by `refresh_access_token` from a 200
response: the response's access token, the (possibly preserved) refresh
token, and the recomputed expiry. -/
def newTokensOf (body : TokenResponse) (now : Nat) (current : Option String) : Tokens :=
  { access_token := body.access_token
    refresh_token := preservedRefreshToken body current
    expires_at := expiresFromResp body now }

/-- oauth_module.py `refresh_access_token`: look up the stored record,
require a truthy refresh token and configured credentials, POST the
refresh grant (recorded in the trace), and on HTTP 200 store a record
carrying the response's tokens — preserving the prior refresh token when
the response omits one — with `expires_at = now + expires_in` when
`expires_in` is present. -/
def refresh_access_token (cfg : Cfg) (resp : HttpResp) (now : Nat) (st : St)
    (user_id : String) : OpResult Tokens × St × List Ev :=
  match get_tokens cfg st user_id with
  | none => ((false, none, some ("No tokens found for user")), st, [])
  | some current_tokens =>
    if !optStrTruthy current_tokens.refresh_token then
      ((false, none, some ("No refresh token available")), st, [])
    else if !cfg.smartHomeCreds then
      ((false, none, some ("Smart Home OAuth client credentials not configured")), st, [])
    else
      let ev := [Ev.refreshPost]
      if resp.status == 200 then
        let new_tokens := newTokensOf resp.body now current_tokens.refresh_token
        let sres := store_tokens cfg st user_id new_tokens
        if sres.1 then ((true, some new_tokens, none), sres.2, ev)
        else ((false, none, some ("Failed to store refreshed tokens")), sres.2, ev)
      else
        ((false, none, some ("Token refresh failed: " ++ toString resp.status)), st, ev)

/-- oauth_module.py `exchange_authorization_code`: require configured
credentials, POST the authorization-code grant, require a truthy
`access_token` in a 200 response, resolve the real user id from that
access token (falling back to the provided `user_id`; a truthy non-string
claim makes the store's key derivation raise, which surfaces as a failed
store), compute `expires_at`, and commit via the store. -/
def exchange_authorization_code (cfg : Cfg) (resp : HttpResp) (now : Nat) (st : St)
    (_auth_code user_id : String) : OpResult Tokens × St × List Ev :=
  if !cfg.smartHomeCreds then
    ((false, none, some ("Smart Home OAuth client credentials not configured")), st, [])
  else
    let ev := [Ev.exchangePost]
    if resp.status == 200 then
      if !optStrTruthy resp.body.access_token then
        ((false, none, some ("No access token in response")), st, ev)
      else
        let access_token := resp.body.access_token.getD ""
        let tokens : Tokens :=
          { access_token := resp.body.access_token
            refresh_token := resp.body.refresh_token
            expires_at := expiresFromResp resp.body now }
        match extract_user_id_from_token access_token with
        | some (Json.str s) =>
          let sres := store_tokens cfg st s tokens
          if sres.1 then ((true, some tokens, none), sres.2, ev)
          else ((false, none, some ("Failed to store tokens")), sres.2, ev)
        | some _ =>
          ((false, none, some ("Failed to store tokens")), st, ev)
        | none =>
          let sres := store_tokens cfg st user_id tokens
          if sres.1 then ((true, some tokens, none), sres.2, ev)
          else ((false, none, some ("Failed to store tokens")), sres.2, ev)
    else
      ((false, none, some ("Token exchange failed: " ++ toString resp.status)), st, ev)

/-- oauth_module.py `get_valid_access_token`: read the stored record,
require a truthy access token, and when `expires_at` parses and lies
within five minutes of now (`expires_at <= now + 300`) perform one
refresh, returning the refreshed record's access token on success; a
missing or unparseable `expires_at` falls through to returning the stored
token. -/
def get_valid_access_token (cfg : Cfg) (resp : HttpResp) (now : Nat) (st : St)
    (user_id : String) : OpResult String × St × List Ev :=
  match get_tokens cfg st user_id with
  | none => ((false, none, some ("No tokens found for user")), st, [])
  | some tokens =>
    if !optStrTruthy tokens.access_token then
      ((false, none, some ("No access token available")), st, [])
    else
      match tokens.expires_at with
      | some (ExpiresAt.parsed t) =>
        if t ≤ now + 300 then
          match refresh_access_token cfg resp now st user_id with
          | ((true, some new_tokens, _), st', ev) =>
            ((true, new_tokens.access_token, none), st', ev)
          | ((_, _, err), st', ev) =>
            ((false, none, some ("Token refresh failed: " ++ err.getD (""))), st', ev)
        else ((true, tokens.access_token, none), st, [])
      | some (ExpiresAt.unparseable _) => ((true, tokens.access_token, none), st, [])
      | none => ((true, tokens.access_token, none), st, [])

/-- oauth_module.py `send_change_report` (the `sendStateChange`-shaped
gateway sender used by the PowerController path): obtain a valid token,
POST the ChangeReport once, succeed only on HTTP 202 — it performs no
refresh and no retry of its own. -/
def send_change_report (cfg : Cfg) (gvResp : HttpResp) (now : Nat)
    (gatewayStatus : Nat) (st : St) (user_id _endpoint_id _power_state : String) :
    (Bool × Option String) × St × List Ev :=
  match get_valid_access_token cfg gvResp now st user_id with
  | ((false, _, err), st1, ev1) =>
    ((false, some ("Authentication failed: " ++ err.getD (""))), st1, ev1)
  | ((true, tokOpt, _), st1, ev1) =>
    let ev2 := ev1 ++ [Ev.gatewayPost tokOpt]
    if gatewayStatus == 202 then ((true, none), st1, ev2)
    else ((false, some ("ChangeReport failed: " ++ toString gatewayStatus)), st1, ev2)

/-- function_app.py `send_change_report_to_alexa`: obtain a valid token,
POST the ChangeReport; on HTTP 202 succeed; on HTTP 401 perform exactly
one refresh and, if it succeeds, one retry POST with the refreshed
record's access token, succeeding only when the retry returns 202; every
other status fails without retrying. -/
def send_change_report_to_alexa (cfg : Cfg) (gvResp retryResp : HttpResp) (now : Nat)
    (firstStatus retryStatus : Nat) (st : St) (user_id : Option String) :
    Bool × St × List Ev :=
  match user_id with
  | none => (false, st, [])
  | some uid =>
    match get_valid_access_token cfg gvResp now st uid with
    | ((false, _, _), st1, ev1) => (false, st1, ev1)
    | ((true, tokOpt, _), st1, ev1) =>
      let ev2 := ev1 ++ [Ev.gatewayPost tokOpt]
      if firstStatus == 202 then (true, st1, ev2)
      else if firstStatus == 401 then
        match refresh_access_token cfg retryResp now st1 uid with
        | ((true, some new_token, _), st2, ev3) =>
          let ev4 := ev2 ++ ev3 ++ [Ev.gatewayPost new_token.access_token]
          if retryStatus == 202 then (true, st2, ev4) else (false, st2, ev4)
        | ((_, _, _), st2, ev3) => (false, st2, ev2 ++ ev3)
      else (false, st1, ev2)

/-! ### Request authentication (auth_module.py) -/

/-- The two header spellings `Authorization` / `authorization` checked by
`extract_token_from_alexa_request`. -/
structure Headers where
  authorization : Option String
  lowerAuthorization : Option String
deriving DecidableEq

/-- The flattened token-bearing paths of an Alexa-shaped request body;
a field is `some` exactly when the full nested path exists. -/
structure AlexaBody where
  directiveEndpointScopeToken : Option String
  directivePayloadScopeToken : Option String
  contextSystemUserAccessToken : Option String
  sessionUserAccessToken : Option String
deriving DecidableEq

/-- The token-bearing parts of an HTTP-shaped request:
`headers.get('Authorization','')`, the `access_token` query parameter and
the `access_token` JSON-body field (`none` also covers an unparseable or
empty body). -/
structure HttpReq where
  authHeader : Option String
  accessTokenParam : Option String
  bodyAccessToken : Option String
deriving DecidableEq

/-- The introspection endpoint's response: HTTP status and the `user_id`
field of its JSON body. -/
structure LwaResp where
  status : Nat
  user_id : Option String
deriving DecidableEq

/-- auth_module.py `extract_token_from_alexa_request`: Authorization
header (either spelling, Bearer-prefixed) first, then the two directive
scope paths, then the two session-shaped paths. -/
def extract_token_from_alexa_request (body : AlexaBody) (headers : Option Headers) :
    Option String :=
  let headerTok : Option String :=
    match headers with
    | some hs =>
      match pyOrStr hs.authorization hs.lowerAuthorization with
      | some ah =>
        if !(ah == "") && ah.startsWith ("Bearer ") then some (ah.drop 7) else none
      | none => none
    | none => none
  match headerTok with
  | some t => some t
  | none =>
    match body.directiveEndpointScopeToken with
    | some t => some t
    | none =>
      match body.directivePayloadScopeToken with
      | some t => some t
      | none =>
        match body.contextSystemUserAccessToken with
        | some t => some t
        | none => body.sessionUserAccessToken

/-- auth_module.py `extract_token_from_http_request`: Bearer header, then
a truthy `access_token` query parameter, then the `access_token` body
field (returned even when empty). -/
def extract_token_from_http_request (req : HttpReq) : Option String :=
  let ah := req.authHeader.getD ""
  if ah.startsWith ("Bearer ") then some (ah.drop 7)
  else
    match req.accessTokenParam with
    | some t => if t == "" then req.bodyAccessToken else some t
    | none => req.bodyAccessToken

/-- auth_module.py `validate_amazon_token`: reject a falsy token without
calling out; otherwise GET the introspection endpoint (recorded in the
trace) and require HTTP 200 with a truthy `user_id`. -/
def validate_amazon_token (access_token : String) (lwa : LwaResp) :
    OpResult String × List Ev :=
  if access_token == "" then ((false, none, some ("No access token provided")), [])
  else
    let ev := [Ev.introspectGet access_token]
    if lwa.status == 200 then
      match lwa.user_id with
      | some uid =>
        if uid == "" then ((false, none, some ("Invalid token format")), ev)
        else ((true, some uid, none), ev)
      | none => ((false, none, some ("Invalid token format")), ev)
    else ((false, none, some ("Token validation failed: " ++ toString lwa.status)), ev)

/-- auth_module.py `validate_oauth_token`: the stored-token lookup is a
placeholder that always misses. -/
def validate_oauth_token (_access_token : String) : Option String := none

/-- auth_module.py `check_user_authorization`: authorized when no allowed
user is configured or the identity matches it exactly (case-sensitive). -/
def check_user_authorization (cfg : Cfg) (user_id : String) : Bool × Option String :=
  if cfg.allowedUserId == "" then (true, none)
  else if user_id == cfg.allowedUserId then (true, none)
  else (false, some ("User not authorized: " ++ user_id))

/-- auth_module.py `authenticate_smart_home_request`: bypass short-circuit,
token discovery, stored-token lookup (always misses), introspection
fallback, then the allowed-user check — failures report the resolved
identity. -/
def authenticate_smart_home_request (cfg : Cfg) (lwa : LwaResp) (body : AlexaBody)
    (headers : Headers) : OpResult String × List Ev :=
  if cfg.bypassAuth then ((true, some ("bypass"), none), [])
  else
    match extract_token_from_alexa_request body (some headers) with
    | none => ((false, none, some ("Authentication required")), [])
    | some access_token =>
      match validate_oauth_token access_token with
      | some uid =>
        let (authz, aerr) := check_user_authorization cfg uid
        if !authz then ((false, some uid, aerr), [])
        else ((true, some uid, none), [])
      | none =>
        match validate_amazon_token access_token lwa with
        | ((false, _, err), ev) =>
          ((false, none, some ("Invalid access token: " ++ err.getD (""))), ev)
        | ((true, uidOpt, _), ev) =>
          let uid := uidOpt.getD ""
          let (authz, aerr) := check_user_authorization cfg uid
          if !authz then ((false, some uid, aerr), ev)
          else ((true, some uid, none), ev)

/-- auth_module.py `authenticate_request`: bypass short-circuit, then
token discovery by request kind (the Alexa branch passes no headers),
introspection, then the allowed-user check. -/
def authenticate_request (cfg : Cfg) (lwa : LwaResp) (is_alexa_request : Bool)
    (alexaBody : AlexaBody) (req : HttpReq) : OpResult String × List Ev :=
  if cfg.bypassAuth then ((true, some ("bypass"), none), [])
  else
    let access_token :=
      if is_alexa_request then extract_token_from_alexa_request alexaBody none
      else extract_token_from_http_request req
    match access_token with
    | none => ((false, none, some ("Authentication required")), [])
    | some tok =>
      match validate_amazon_token tok lwa with
      | ((false, _, err), ev) =>
        ((false, none, some ("Invalid access token: " ++ err.getD (""))), ev)
      | ((true, uidOpt, _), ev) =>
        let uid := uidOpt.getD ""
        let (authz, aerr) := check_user_authorization cfg uid
        if !authz then ((false, some uid, aerr), ev)
        else ((true, some uid, none), ev)

/-! ### Operation sequences over the credential store (for the C4 invariant) -/

/-- One externally triggerable mutation of the credential store, carrying
the provider response and wall-clock instant observed during it. -/
inductive Op where
  | storeOp : String → Tokens → Op
  | exchangeOp : HttpResp → Nat → String → String → Op
  | refreshOp : HttpResp → Nat → String → Op
  | deleteOp : String → Op

/-- The store state after one operation. -/
def applyOp (cfg : Cfg) (st : St) : Op → St
  | Op.storeOp uid tokens => (store_tokens cfg st uid tokens).2
  | Op.exchangeOp resp now code uid => (exchange_authorization_code cfg resp now st code uid).2.1
  | Op.refreshOp resp now uid => (refresh_access_token cfg resp now st uid).2.1
  | Op.deleteOp uid => (delete_tokens cfg st uid).2

/-- The store state after a sequence of operations. -/
def runOps (cfg : Cfg) (st : St) : List Op → St
  | [] => st
  | op :: ops => runOps cfg (applyOp cfg st op) ops

/-! ### Concrete sample data used by witnesses and counterexamples -/

/-- A memory-backend configuration with credentials set. -/
def cfgMem : Cfg :=
  { storageType := "memory", smartHomeCreds := true, kvClientInit := false
    kvSetSecretFails := false, kvGetSecretFails := false, kvDeleteFails := false
    allowedUserId := "", bypassAuth := false }

def emptySt : St := { cache := [], fileTable := [], vault := [] }

/-- A stored record for user alice whose token is valid far in the future. -/
def recAlice : Tokens :=
  { access_token := some ("tokA"), refresh_token := some ("r1")
    expires_at := some (ExpiresAt.parsed 10000) }

def stAlice : St := { cache := [(("alice"), recAlice)], fileTable := [], vault := [] }

/-- A record for alice whose token expires soon (within the 5-minute skew). -/
def recStale : Tokens :=
  { access_token := some ("tokOld"), refresh_token := some ("r1")
    expires_at := some (ExpiresAt.parsed 100) }

def stStale : St := { cache := [(("alice"), recStale)], fileTable := [], vault := [] }

/-- A provider response that is never consulted on the paths under test. -/
def respUnused : HttpResp :=
  { status := 500, body := { access_token := none, refresh_token := none, expires_in := none } }

/-- A successful refresh response carrying a fresh access token. -/
def respFresh : HttpResp :=
  { status := 200
    body := { access_token := some ("tokNew"), refresh_token := none, expires_in := some 3600 } }

/-- A record with a present-but-later expiry used by the C4 counterexample. -/
def recEarlier : Tokens :=
  { access_token := some (""), refresh_token := none
    expires_at := some (ExpiresAt.parsed 500) }

def recLater : Tokens :=
  { access_token := some ("tokB"), refresh_token := none
    expires_at := some (ExpiresAt.parsed 1000) }

/-- Every record in a table has a truthy access token. -/
def tblInv (t : List (String × Tokens)) : Prop :=
  ∀ kv ∈ t, optStrTruthy kv.snd.access_token = true

instance (t : List (String × Tokens)) : Decidable (tblInv t) := by
  unfold tblInv; infer_instance

/-- Every record anywhere in the store has a truthy access token. -/
def accessInv (st : St) : Prop :=
  tblInv st.cache ∧ tblInv st.fileTable ∧ tblInv st.vault

instance (st : St) : Decidable (accessInv st) := by
  unfold accessInv; infer_instance

/-- Operations that never plant an empty access token: direct stores of a
validated record, exchanges (which validate in-code), refreshes whose
200 response carries a truthy access token, and deletes. -/
def goodOp : Op → Prop
  | Op.storeOp _ tokens => optStrTruthy tokens.access_token = true
  | Op.exchangeOp _ _ _ _ => True
  | Op.refreshOp resp _ _ => resp.status = 200 → optStrTruthy resp.body.access_token = true
  | Op.deleteOp _ => True

instance (op : Op) : Decidable (goodOp op) := by
  cases op <;> simp only [goodOp] <;> infer_instance

theorem tblInv_insert {t : List (String × Tokens)} {k : String} {v : Tokens}
    (ht : tblInv t) (hv : optStrTruthy v.access_token = true) :
    tblInv (insertTbl k v t) := by
  intro kv hkv
  rcases List.mem_cons.1 hkv with h | h
  · subst h; exact hv
  · exact ht kv (List.mem_of_mem_filter h)

theorem tblInv_filter {t : List (String × Tokens)} {p : String × Tokens → Bool}
    (ht : tblInv t) : tblInv (t.filter p) := by
  intro kv hkv
  exact ht kv (List.mem_of_mem_filter hkv)

theorem store_tokens_inv {cfg : Cfg} {st : St} {uid : String} {rec : Tokens}
    (hinv : accessInv st) (hrec : optStrTruthy rec.access_token = true) :
    accessInv (store_tokens cfg st uid rec).2 := by
  obtain ⟨h1, h2, h3⟩ := hinv
  unfold store_tokens
  split
  · exact ⟨tblInv_insert h1 hrec, h2, h3⟩
  · split
    · exact ⟨h1, tblInv_insert h2 hrec, h3⟩
    · split
      · split
        · exact ⟨tblInv_insert h1 hrec, h2, h3⟩
        · split
          · exact ⟨tblInv_insert h1 hrec, h2, h3⟩
          · exact ⟨h1, h2, tblInv_insert h3 hrec⟩
      · exact ⟨h1, h2, h3⟩

theorem delete_tokens_inv {cfg : Cfg} {st : St} {uid : String}
    (hinv : accessInv st) : accessInv (delete_tokens cfg st uid).2 := by
  obtain ⟨h1, h2, h3⟩ := hinv
  unfold delete_tokens removeTbl
  split
  · exact ⟨tblInv_filter h1, h2, h3⟩
  · split
    · exact ⟨h1, tblInv_filter h2, h3⟩
    · split
      · split
        · exact ⟨tblInv_filter h1, h2, h3⟩
        · split
          · exact ⟨tblInv_filter h1, h2, h3⟩
          · exact ⟨h1, h2, tblInv_filter h3⟩
      · exact ⟨h1, h2, h3⟩

theorem refresh_access_token_inv {cfg : Cfg} {resp : HttpResp} {now : Nat}
    {st : St} {uid : String} (hinv : accessInv st)
    (hresp : resp.status = 200 → optStrTruthy resp.body.access_token = true) :
    accessInv (refresh_access_token cfg resp now st uid).2.1 := by
  unfold refresh_access_token
  split
  · exact hinv
  · split
    · exact hinv
    · split
      · exact hinv
      · split
        · rename_i hst
          have hacc : optStrTruthy resp.body.access_token = true :=
            hresp (beq_iff_eq.mp hst)
          dsimp only
          split
          · exact store_tokens_inv hinv hacc
          · exact store_tokens_inv hinv hacc
        · exact hinv

theorem exchange_authorization_code_inv {cfg : Cfg} {resp : HttpResp} {now : Nat}
    {st : St} {code uid : String} (hinv : accessInv st) :
    accessInv (exchange_authorization_code cfg resp now st code uid).2.1 := by
  unfold exchange_authorization_code
  split
  · exact hinv
  · split
    · split
      · exact hinv
      · rename_i hok
        have hacc : optStrTruthy resp.body.access_token = true := by
          cases h : optStrTruthy resp.body.access_token with
          | true => rfl
          | false => rw [h] at hok; exact absurd hok (by simp)
        dsimp only
        split
        · split
          · exact store_tokens_inv hinv hacc
          · exact store_tokens_inv hinv hacc
        · exact hinv
        · split
          · exact store_tokens_inv hinv hacc
          · exact store_tokens_inv hinv hacc
    · exact hinv

theorem applyOp_inv {cfg : Cfg} {st : St} {op : Op} (hinv : accessInv st)
    (hop : goodOp op) : accessInv (applyOp cfg st op) := by
  cases op with
  | storeOp uid tokens => exact store_tokens_inv hinv hop
  | exchangeOp resp now code uid => exact exchange_authorization_code_inv hinv
  | refreshOp resp now uid => exact refresh_access_token_inv hinv hop
  | deleteOp uid => exact delete_tokens_inv hinv

theorem runOps_inv {cfg : Cfg} {st : St} {ops : List Op} (hinv : accessInv st)
    (hops : ∀ op ∈ ops, goodOp op) : accessInv (runOps cfg st ops) := by
  induction ops generalizing st with
  | nil => exact hinv
  | cons op ops ih =>
    exact ih (applyOp_inv hinv (hops op (List.mem_cons_self op ops)))
      (fun o ho => hops o (List.mem_cons_of_mem op ho))

/-! ### Claim theorems -/

/-- C10: for every user identifier, when no allowed-user identifier is
configured (the configured value is the empty string), the authorization
check returns authorized with no error. -/
theorem C10_no_allowed_user (cfg : Cfg) (user_id : String)
    (h : cfg.allowedUserId = "") :
    check_user_authorization cfg user_id = (true, none) := by
  unfold check_user_authorization
  rw [h]
  simp

theorem C10_witness : check_user_authorization cfgMem ("anyone") = (true, none) :=
  C10_no_allowed_user cfgMem ("anyone") rfl

/-- C7: with the remote secret-store backend selected, when the remote
write fails (client uninitialized or the write raises) the store
operation writes the record to the in-process memory cache instead,
still returns success, and leaves the remote store untouched. -/
theorem C7_kv_fallback (cfg : Cfg) (st : St) (user_id : String) (tokens : Tokens)
    (hkv : cfg.storageType = "azure_key_vault")
    (hfail : cfg.kvClientInit = false ∨ cfg.kvSetSecretFails = true) :
    (store_tokens cfg st user_id tokens).1 = true ∧
    lookupTbl (getUserKey user_id) (store_tokens cfg st user_id tokens).2.cache =
      some tokens ∧
    (store_tokens cfg st user_id tokens).2.vault = st.vault := by
  unfold store_tokens
  rw [hkv]
  rcases hfail with h | h <;>
    simp [h, insertTbl, lookupTbl, getUserKey]

theorem C7_witness :
    (store_tokens { cfgMem with storageType := "azure_key_vault" } emptySt ("alice")
      recAlice).1 = true ∧
    lookupTbl (getUserKey ("alice"))
      (store_tokens { cfgMem with storageType := "azure_key_vault" } emptySt ("alice")
        recAlice).2.cache = some recAlice ∧
    (store_tokens { cfgMem with storageType := "azure_key_vault" } emptySt ("alice")
      recAlice).2.vault = emptySt.vault :=
  C7_kv_fallback { cfgMem with storageType := "azure_key_vault" } emptySt ("alice")
    recAlice rfl (Or.inl rfl)

/-- C5: with the process-wide bypass flag enabled, both authenticate
operations return authenticated with the sentinel identity bypass and no
error, for every body, header set and introspection environment, making
no network call (empty trace) and no allowed-user check. -/
theorem C5_bypass (cfg : Cfg) (lwa : LwaResp) (body : AlexaBody) (headers : Headers)
    (req : HttpReq) (is_alexa_request : Bool) (hb : cfg.bypassAuth = true) :
    authenticate_smart_home_request cfg lwa body headers =
      ((true, some ("bypass"), none), []) ∧
    authenticate_request cfg lwa is_alexa_request body req =
      ((true, some ("bypass"), none), []) := by
  unfold authenticate_smart_home_request authenticate_request
  rw [hb]
  simp

theorem C5_witness :
    authenticate_smart_home_request { cfgMem with bypassAuth := true }
      { status := 500, user_id := none }
      { directiveEndpointScopeToken := none, directivePayloadScopeToken := none
        contextSystemUserAccessToken := none, sessionUserAccessToken := none }
      { authorization := none, lowerAuthorization := none } =
      ((true, some ("bypass"), none), []) ∧
    authenticate_request { cfgMem with bypassAuth := true }
      { status := 500, user_id := none } false
      { directiveEndpointScopeToken := none, directivePayloadScopeToken := none
        contextSystemUserAccessToken := none, sessionUserAccessToken := none }
      { authHeader := none, accessTokenParam := none, bodyAccessToken := none } =
      ((true, some ("bypass"), none), []) :=
  C5_bypass { cfgMem with bypassAuth := true } { status := 500, user_id := none }
    { directiveEndpointScopeToken := none, directivePayloadScopeToken := none
      contextSystemUserAccessToken := none, sessionUserAccessToken := none }
    { authorization := none, lowerAuthorization := none }
    { authHeader := none, accessTokenParam := none, bodyAccessToken := none }
    false rfl

/-- C9: for a stored record whose expires_at is present but fails to
parse as a timestamp, get_valid_access_token returns success with the
stored access token and performs no network call (no refresh). -/
theorem C9_unparseable_expiry (cfg : Cfg) (resp : HttpResp) (now : Nat) (st : St)
    (user_id tok raw : String) (rt : Option String)
    (hrec : get_tokens cfg st user_id =
      some { access_token := some tok, refresh_token := rt
             expires_at := some (ExpiresAt.unparseable raw) })
    (htok : tok ≠ "") :
    get_valid_access_token cfg resp now st user_id = ((true, some tok, none), st, []) := by
  unfold get_valid_access_token
  rw [hrec]
  have h1 : (tok == "") = false := beq_eq_false_iff_ne.mpr htok
  simp [optStrTruthy, h1]

theorem C9_witness :
    get_valid_access_token cfgMem respUnused 0
      { cache := [(("alice"),
          { access_token := some ("tokA"), refresh_token := some ("r1")
            expires_at := some (ExpiresAt.unparseable ("garbage")) })]
        fileTable := [], vault := [] } ("alice") =
      ((true, some ("tokA"), none),
       { cache := [(("alice"),
           { access_token := some ("tokA"), refresh_token := some ("r1")
             expires_at := some (ExpiresAt.unparseable ("garbage")) })]
         fileTable := [], vault := [] }, []) :=
  C9_unparseable_expiry cfgMem respUnused 0 _ ("alice") ("tokA") ("garbage")
    (some ("r1")) rfl (by decide)

/-! ### Helper lemmas about the lifecycle operations -/

theorem lookupTbl_insertTbl (k : String) (v : Tokens) (t : List (String × Tokens)) :
    lookupTbl k (insertTbl k v t) = some v := by
  simp [lookupTbl, insertTbl, List.find?]

/-- A stored record whose parsed expiry is beyond the 5-minute skew is
returned as-is, with no network call. -/
theorem get_valid_fresh (cfg : Cfg) (resp : HttpResp) (now t : Nat) (st : St)
    (user_id tok : String) (rt : Option String)
    (hrec : get_tokens cfg st user_id =
      some { access_token := some tok, refresh_token := rt
             expires_at := some (ExpiresAt.parsed t) })
    (htok : tok ≠ "") (hfresh : now + 300 < t) :
    get_valid_access_token cfg resp now st user_id = ((true, some tok, none), st, []) := by
  have h1 : (tok == "") = false := beq_eq_false_iff_ne.mpr htok
  unfold get_valid_access_token
  rw [hrec]
  simp [optStrTruthy, h1, Nat.not_le.mpr hfresh]

/-- A refresh against the memory backend with a 200 response stores and
returns the response's record, preserving the prior refresh token when
the response omits one. -/
theorem refresh_success_mem (cfg : Cfg) (resp : HttpResp) (now : Nat) (st : St)
    (user_id rt : String) (acc : Option String) (exp : Option ExpiresAt)
    (hmem : cfg.storageType = "memory") (hcreds : cfg.smartHomeCreds = true)
    (hrec : get_tokens cfg st user_id =
      some { access_token := acc, refresh_token := some rt, expires_at := exp })
    (hrt : rt ≠ "") (hstatus : resp.status = 200) :
    refresh_access_token cfg resp now st user_id =
      ((true, some (newTokensOf resp.body now (some rt)), none),
       { st with cache :=
          (insertTbl (getUserKey user_id) (newTokensOf resp.body now (some rt)) st.cache) },
       [Ev.refreshPost]) := by
  have h1 : (rt == "") = false := beq_eq_false_iff_ne.mpr hrt
  unfold refresh_access_token store_tokens
  rw [hrec]
  simp [optStrTruthy, h1, hcreds, hstatus, hmem]

/-- C2: for a stored record, get_valid_access_token returns the stored
access token with no refresh when the parsed expiry is more than five
minutes after now, and performs exactly one refresh — returning the
refreshed access token on refresh success — when the expiry is within
five minutes of now. -/
theorem C2_skew_refresh (cfg : Cfg) (resp : HttpResp) (now t : Nat) (st : St)
    (user_id tok rt : String)
    (hmem : cfg.storageType = "memory") (hcreds : cfg.smartHomeCreds = true)
    (hrec : get_tokens cfg st user_id =
      some { access_token := some tok, refresh_token := some rt
             expires_at := some (ExpiresAt.parsed t) })
    (htok : tok ≠ "") (hrt : rt ≠ "") :
    (now + 300 < t →
      get_valid_access_token cfg resp now st user_id =
        ((true, some tok, none), st, [])) ∧
    (t ≤ now + 300 → resp.status = 200 →
      ∀ newAt, resp.body.access_token = some newAt →
      ∃ st', get_valid_access_token cfg resp now st user_id =
        ((true, some newAt, none), st', [Ev.refreshPost])) := by
  have h1 : (tok == "") = false := beq_eq_false_iff_ne.mpr htok
  constructor
  · intro hfresh
    exact get_valid_fresh cfg resp now t st user_id tok (some rt) hrec htok hfresh
  · intro hstale hstatus newAt hat
    refine ⟨{ st with cache :=
      (insertTbl (getUserKey user_id) (newTokensOf resp.body now (some rt)) st.cache) }, ?_⟩
    unfold get_valid_access_token
    rw [hrec]
    rw [refresh_success_mem cfg resp now st user_id rt (some tok)
      (some (ExpiresAt.parsed t)) hmem hcreds hrec hrt hstatus]
    simp [optStrTruthy, h1, hstale, newTokensOf, hat]

theorem C2_witness :
    (get_valid_access_token cfgMem respUnused 0 stAlice ("alice") =
      ((true, some ("tokA"), none), stAlice, [])) ∧
    (∃ st', get_valid_access_token cfgMem respFresh 0 stStale ("alice") =
      ((true, some ("tokNew"), none), st', [Ev.refreshPost])) :=
  ⟨(C2_skew_refresh cfgMem respUnused 0 10000 stAlice ("alice") ("tokA") ("r1")
      rfl rfl rfl (by decide) (by decide)).1 (by decide),
   (C2_skew_refresh cfgMem respFresh 0 100 stStale ("alice") ("tokOld") ("r1")
      rfl rfl rfl (by decide) (by decide)).2 (by decide) rfl ("tokNew") rfl⟩

/-- C8: a successful refresh stores and returns a record whose refresh
token equals the provider's new refresh token when the response includes
one, and equals the prior refresh token when the response omits it. -/
theorem C8_refresh_token_preserved (cfg : Cfg) (resp : HttpResp) (now : Nat)
    (st : St) (user_id rt : String) (acc : Option String) (exp : Option ExpiresAt)
    (hmem : cfg.storageType = "memory") (hcreds : cfg.smartHomeCreds = true)
    (hrec : get_tokens cfg st user_id =
      some { access_token := acc, refresh_token := some rt, expires_at := exp })
    (hrt : rt ≠ "") (hstatus : resp.status = 200) :
    ∃ nt st', refresh_access_token cfg resp now st user_id =
        ((true, some nt, none), st', [Ev.refreshPost]) ∧
      (resp.body.refresh_token = none → nt.refresh_token = some rt) ∧
      (∀ nrt, resp.body.refresh_token = some nrt → nt.refresh_token = some nrt) ∧
      lookupTbl (getUserKey user_id) st'.cache = some nt := by
  refine ⟨newTokensOf resp.body now (some rt),
    { st with cache :=
      (insertTbl (getUserKey user_id) (newTokensOf resp.body now (some rt)) st.cache) },
    refresh_success_mem cfg resp now st user_id rt acc exp
      hmem hcreds hrec hrt hstatus, ?_, ?_, ?_⟩
  · intro hnone
    simp [newTokensOf, preservedRefreshToken, hnone]
  · intro nrt hsome
    simp [newTokensOf, preservedRefreshToken, hsome]
  · exact lookupTbl_insertTbl _ _ _

theorem C8_witness :
    ∃ nt st', refresh_access_token cfgMem respFresh 0 stAlice ("alice") =
        ((true, some nt, none), st', [Ev.refreshPost]) ∧
      (respFresh.body.refresh_token = none → nt.refresh_token = some ("r1")) ∧
      (∀ nrt, respFresh.body.refresh_token = some nrt → nt.refresh_token = some nrt) ∧
      lookupTbl (getUserKey ("alice")) st'.cache = some nt :=
  C8_refresh_token_preserved cfgMem respFresh 0 stAlice ("alice") ("r1")
    (some ("tokA")) (some (ExpiresAt.parsed 10000)) rfl rfl rfl (by decide) (by decide)

/-- C1 counterexample: the oauth_module ChangeReport sender — the
operation whose signature matches the spec's sendStateChange — receiving
HTTP 401 on its first gateway POST returns failure after exactly one
gateway POST and zero refresh calls: it performs no refresh and no
retried POST, contradicting the claim for this send operation. -/
theorem C1_counterexample :
    send_change_report cfgMem respUnused 0 401 stAlice ("alice") ("ep1") ("ON") =
      ((false, some ("ChangeReport failed: 401")), stAlice,
        [Ev.gatewayPost (some ("tokA"))]) ∧
    countRefreshPosts [Ev.gatewayPost (some ("tokA"))] = 0 ∧
    countGatewayPosts [Ev.gatewayPost (some ("tokA"))] = 1 :=
  ⟨rfl, rfl, rfl⟩

/-- C1 (amended): for the function_app ChangeReport sender, when the
stored token is still fresh, the first gateway POST returns 401, the
refresh succeeds, and the retried POST returns 202, the overall result
is success with exactly two gateway POSTs — the second carrying the
refreshed access token — and exactly one refresh call. -/
theorem C1_retry_once (cfg : Cfg) (gvResp retryResp : HttpResp) (now t : Nat)
    (st : St) (user_id tok rt newAt : String)
    (hmem : cfg.storageType = "memory") (hcreds : cfg.smartHomeCreds = true)
    (hrec : get_tokens cfg st user_id =
      some { access_token := some tok, refresh_token := some rt
             expires_at := some (ExpiresAt.parsed t) })
    (htok : tok ≠ "") (hrt : rt ≠ "") (hfresh : now + 300 < t)
    (hstatus : retryResp.status = 200)
    (hat : retryResp.body.access_token = some newAt) :
    ∃ st', send_change_report_to_alexa cfg gvResp retryResp now 401 202 st
        (some user_id) =
      (true, st',
        [Ev.gatewayPost (some tok), Ev.refreshPost, Ev.gatewayPost (some newAt)]) ∧
    countGatewayPosts
      [Ev.gatewayPost (some tok), Ev.refreshPost, Ev.gatewayPost (some newAt)] = 2 ∧
    countRefreshPosts
      [Ev.gatewayPost (some tok), Ev.refreshPost, Ev.gatewayPost (some newAt)] = 1 := by
  refine ⟨{ st with cache :=
    (insertTbl (getUserKey user_id) (newTokensOf retryResp.body now (some rt)) st.cache) },
    ?_, rfl, rfl⟩
  unfold send_change_report_to_alexa
  dsimp only
  rw [get_valid_fresh cfg gvResp now t st user_id tok (some rt) hrec htok hfresh]
  dsimp only
  rw [refresh_success_mem cfg retryResp now st user_id rt (some tok)
    (some (ExpiresAt.parsed t)) hmem hcreds hrec hrt hstatus]
  simp [newTokensOf, hat]

theorem C1_witness :
    ∃ st', send_change_report_to_alexa cfgMem respUnused respFresh 0 401 202 stAlice
        (some ("alice")) =
      (true, st',
        [Ev.gatewayPost (some ("tokA")), Ev.refreshPost,
         Ev.gatewayPost (some ("tokNew"))]) ∧
    countGatewayPosts
      [Ev.gatewayPost (some ("tokA")), Ev.refreshPost,
       Ev.gatewayPost (some ("tokNew"))] = 2 ∧
    countRefreshPosts
      [Ev.gatewayPost (some ("tokA")), Ev.refreshPost,
       Ev.gatewayPost (some ("tokNew"))] = 1 :=
  C1_retry_once cfgMem respUnused respFresh 0 10000 stAlice ("alice") ("tokA")
    ("r1") ("tokNew") rfl rfl rfl (by decide) (by decide) (by decide) rfl rfl

/-- C6: with an allowed user configured and a token validated by
introspection, the authentication decision succeeds exactly when the
resolved identity equals the configured identifier (case-sensitive), and
a mismatch is an overall failure that still reports the resolved
identity. -/
theorem C6_allowed_user (cfg : Cfg) (lwa : LwaResp) (body : AlexaBody)
    (headers : Headers) (tok uid : String)
    (hnb : cfg.bypassAuth = false) (hallowed : cfg.allowedUserId ≠ "")
    (hex : extract_token_from_alexa_request body (some headers) = some tok)
    (htok : tok ≠ "") (hstatus : lwa.status = 200)
    (huid : lwa.user_id = some uid) (hne : uid ≠ "") :
    authenticate_smart_home_request cfg lwa body headers =
      (if uid = cfg.allowedUserId
       then ((true, some uid, none), [Ev.introspectGet tok])
       else ((false, some uid, some ("User not authorized: " ++ uid)),
             [Ev.introspectGet tok])) ∧
    ((authenticate_smart_home_request cfg lwa body headers).1.1 = true ↔
      uid = cfg.allowedUserId) := by
  have h1 : (tok == "") = false := beq_eq_false_iff_ne.mpr htok
  have h2 : (uid == "") = false := beq_eq_false_iff_ne.mpr hne
  have h3 : (cfg.allowedUserId == "") = false := beq_eq_false_iff_ne.mpr hallowed
  have hmain : authenticate_smart_home_request cfg lwa body headers =
      (if uid = cfg.allowedUserId
       then ((true, some uid, none), [Ev.introspectGet tok])
       else ((false, some uid, some ("User not authorized: " ++ uid)),
             [Ev.introspectGet tok])) := by
    unfold authenticate_smart_home_request validate_oauth_token validate_amazon_token
      check_user_authorization
    simp only [hnb, hex, h1, h2, h3, hstatus, huid]
    by_cases h : uid = cfg.allowedUserId <;> simp [h]
  refine ⟨hmain, ?_⟩
  rw [hmain]
  by_cases h : uid = cfg.allowedUserId <;> simp [h]

theorem C6_witness :
    authenticate_smart_home_request { cfgMem with allowedUserId := "U1" }
      { status := 200, user_id := some ("U2") }
      { directiveEndpointScopeToken := some ("tokT")
        directivePayloadScopeToken := none
        contextSystemUserAccessToken := none, sessionUserAccessToken := none }
      { authorization := none, lowerAuthorization := none } =
      (if ("U2" : String) = "U1"
       then ((true, some ("U2"), none), [Ev.introspectGet ("tokT")])
       else ((false, some ("U2"), some ("User not authorized: " ++ "U2")),
             [Ev.introspectGet ("tokT")])) ∧
    ((authenticate_smart_home_request { cfgMem with allowedUserId := "U1" }
      { status := 200, user_id := some ("U2") }
      { directiveEndpointScopeToken := some ("tokT")
        directivePayloadScopeToken := none
        contextSystemUserAccessToken := none, sessionUserAccessToken := none }
      { authorization := none, lowerAuthorization := none }).1.1 = true ↔
      ("U2" : String) = "U1") :=
  C6_allowed_user { cfgMem with allowedUserId := "U1" }
    { status := 200, user_id := some ("U2") }
    { directiveEndpointScopeToken := some ("tokT")
      directivePayloadScopeToken := none
      contextSystemUserAccessToken := none, sessionUserAccessToken := none }
    { authorization := none, lowerAuthorization := none }
    ("tokT") ("U2") rfl (by decide) rfl (by decide) rfl rfl (by decide)

/-- The truthiness-filtered lookup chain of extract_user_id_from_token
computes the first key in the priority list whose value is present and
truthy. -/
theorem chain_eq_firstTruthy (payload : Json) :
    (match chainLookup payload with
     | some v => if jsonTruthy v then some v else none
     | none => none) =
    firstTruthy payload [("sub"), ("user_id"), ("userId"), ("aud")] := by
  unfold chainLookup
  cases h1 : objGet payload ("sub") <;>
    cases h2 : objGet payload ("user_id") <;>
      cases h3 : objGet payload ("userId") <;>
        cases h4 : objGet payload ("aud") <;>
          simp only [firstTruthy, pyOrJ, h1, h2, h3, h4] <;>
            (try split_ifs) <;> simp_all [firstTruthy]

set_option maxRecDepth 8192 in
/-- C3 counterexample: on a three-segment token whose middle segment
decodes to a mapping in which the first priority key sub is present with
the (falsy) empty-string value, the function skips it and returns the
user_id value x instead of the first present field, refuting the
present-field reading of the claim. -/
theorem C3_counterexample :
    extract_user_id_from_token ("h.eyJzdWIiOiIiLCJ1c2VyX2lkIjoieCJ9.s") =
      some (Json.str ("x")) ∧
    decodeJwtPayload ("eyJzdWIiOiIiLCJ1c2VyX2lkIjoieCJ9") =
      some (Json.obj [(("sub"), Json.str ("")), (("user_id"), Json.str ("x"))]) :=
  ⟨rfl, rfl⟩

/-- C3 (amended): identity resolution returns abc123 for any
three-segment token whose middle segment decodes to the mapping with sub
abc123; returns absent for any token with a segment count other than
three and for any three-segment token whose middle segment fails to
decode or parse; and on a decoded mapping returns the first key among
sub, user_id, userId, aud whose value is present and truthy (a
present-but-falsy value is skipped). -/
theorem C3_resolution :
    (∀ tok p0 p1 p2, pySplitDot tok = [p0, p1, p2] →
      decodeJwtPayload p1 = some (Json.obj [(("sub"), Json.str ("abc123"))]) →
      extract_user_id_from_token tok = some (Json.str ("abc123"))) ∧
    (∀ tok, (pySplitDot tok).length ≠ 3 →
      extract_user_id_from_token tok = none) ∧
    (∀ tok p0 p1 p2, pySplitDot tok = [p0, p1, p2] →
      decodeJwtPayload p1 = none → extract_user_id_from_token tok = none) ∧
    (∀ tok p0 p1 p2 kvs, pySplitDot tok = [p0, p1, p2] →
      decodeJwtPayload p1 = some (Json.obj kvs) →
      extract_user_id_from_token tok =
        firstTruthy (Json.obj kvs) [("sub"), ("user_id"), ("userId"), ("aud")]) := by
  refine ⟨?_, ?_, ?_, ?_⟩
  · intro tok p0 p1 p2 hsp hdec
    simp only [extract_user_id_from_token, hsp, hdec]
    rfl
  · intro tok h
    unfold extract_user_id_from_token
    cases hsp : pySplitDot tok with
    | nil => rfl
    | cons a l1 =>
      cases l1 with
      | nil => rfl
      | cons b l2 =>
        cases l2 with
        | nil => rfl
        | cons c l3 =>
          cases l3 with
          | nil => exact absurd (by rw [hsp]; rfl) h
          | cons d l4 => rfl
  · intro tok p0 p1 p2 hsp hdec
    simp only [extract_user_id_from_token, hsp, hdec]
  · intro tok p0 p1 p2 kvs hsp hdec
    simp only [extract_user_id_from_token, hsp, hdec]
    exact chain_eq_firstTruthy (Json.obj kvs)

set_option maxRecDepth 8192 in
theorem C3_witness :
    extract_user_id_from_token ("h.eyJzdWIiOiJhYmMxMjMifQ.s") =
      some (Json.str ("abc123")) ∧
    extract_user_id_from_token ("opaque") = none :=
  ⟨C3_resolution.1 ("h.eyJzdWIiOiJhYmMxMjMifQ.s") ("h") ("eyJzdWIiOiJhYmMxMjMifQ")
    ("s") rfl rfl,
   C3_resolution.2.1 ("opaque") (by decide)⟩

/-- C4 counterexample: a two-store sequence — both stores succeed — leaves
the store holding a record whose access token is the empty string and
whose expires_at moved backward from 1000 to 500 with no refresh involved,
refuting both halves of the claimed invariant (store_tokens performs no
validation). -/
theorem C4_counterexample :
    lookupTbl (getUserKey ("alice"))
      (runOps cfgMem emptySt
        [Op.storeOp ("alice") recLater, Op.storeOp ("alice") recEarlier]).cache =
      some recEarlier ∧
    recLater.expires_at = some (ExpiresAt.parsed 1000) ∧
    recEarlier.expires_at = some (ExpiresAt.parsed 500) ∧
    optStrTruthy recEarlier.access_token = false ∧
    ¬ accessInv (runOps cfgMem emptySt
        [Op.storeOp ("alice") recLater, Op.storeOp ("alice") recEarlier]) :=
  ⟨rfl, rfl, rfl, rfl, by decide⟩

/-- C4 (amended): across every sequence of store, exchange, refresh and
delete operations in which each direct store carries a non-empty access
token and each successful refresh response carries a non-empty
access_token, every record existing in any backend of the store has a
non-empty access token (exchange validates this in-code; expires_at is
recomputed by any successful exchange or refresh, not only refresh). -/
theorem C4_access_invariant (cfg : Cfg) (st : St) (ops : List Op)
    (hinv : accessInv st) (hops : ∀ op ∈ ops, goodOp op) :
    accessInv (runOps cfg st ops) :=
  runOps_inv hinv hops

theorem C4_witness :
    accessInv (runOps cfgMem emptySt
      [Op.storeOp ("alice") recAlice,
       Op.exchangeOp respFresh 0 ("code1") ("bob"),
       Op.refreshOp respFresh 50 ("alice"),
       Op.deleteOp ("bob")]) :=
  C4_access_invariant cfgMem emptySt
    [Op.storeOp ("alice") recAlice,
     Op.exchangeOp respFresh 0 ("code1") ("bob"),
     Op.refreshOp respFresh 50 ("alice"),
     Op.deleteOp ("bob")]
    (by decide) (by decide)

end HomeAuto
